import Mathlib

/-!
# Verification of the minimock mock generator

A shallow embedding of `src/minimock.go`: a CLI that resolves a named Go
interface's method set and renders a mock implementation from a fixed text
template.  We embed the flag processing (`processFlags`), the resolver
(`visitor.Visit` / `visitor.processInterface`), the main pipeline, the
template rendering, and the runtime behaviour of the generated mock code
(forwarding methods, call counters and the three verification helpers).
-/

namespace Minimock

/-- A Go method signature as the type checker reports it: ordered parameter
type strings, ordered result type strings, and the variadic flag
(`go/types.Signature`, consumed by `visitor.processInterface`). -/
structure Signature where
  params : List String
  results : List String
  variadic : Bool
deriving DecidableEq, Repr

/-- The `options` struct filled by `processFlags` in `minimock.go`. -/
structure Options where
  InputFile : String
  OutputFile : String
  InterfaceName : String
  StructName : String
  Package : String
deriving DecidableEq, Repr

/-- The raw command-line flag values `-f -i -o -p -t` read by `processFlags`. -/
structure Flags where
  f : String
  i : String
  o : String
  p : String
  t : String
deriving DecidableEq, Repr

/-- Outcome of `processFlags`: either usage text plus `os.Exit(1)`, or the
filled `options` struct. -/
inductive FlagOutcome where
  | usageExit1 : FlagOutcome
  | ok : Options → FlagOutcome
deriving DecidableEq, Repr

/-- Go's `strings.HasSuffix(s, suffix)`: whether the character sequence of
`suffix` is a suffix of the character sequence of `s`. -/
def hasSuffix (s suffix : String) : Bool :=
  List.isSuffixOf suffix.data s.data

/-- `processFlags` from `minimock.go` (lines 177-204): if `-p`, `-f`, `-o`
or `-i` is empty, or `-o` does not end in `".go"`, print usage and exit 1;
otherwise default `-t` to `<interface name>Mock` when empty and return the
options. -/
def processFlags (fl : Flags) : FlagOutcome :=
  if fl.p = "" ∨ fl.f = "" ∨ fl.o = "" ∨ fl.i = "" ∨ ¬ (hasSuffix fl.o (".go") = true) then
    FlagOutcome.usageExit1
  else
    let sname := if fl.t = "" then fl.i ++ "Mock" else fl.t
    FlagOutcome.ok
      { InputFile := fl.f
        OutputFile := fl.o
        InterfaceName := fl.i
        Package := fl.p
        StructName := sname }

/-! ## Interface resolver

`visitor.processInterface` copies the type checker's embedding-resolved
method set of a `*types.Interface` into the map `v.methods`, keyed by
method name.  We model the Go map `map[string]*types.Signature` as an
association list with overwrite-on-insert semantics, and a
`*types.Interface` as the list of `(name, signature)` pairs the calls
`t.Method(0) .. t.Method(NumMethods()-1)` return. -/

/-- One overwrite-on-insert step of the Go map assignment
`v.methods[name] = sig`: if the key is present its value is replaced,
otherwise the pair is appended. -/
def insertMethod (m : List (String × Signature)) (k : String) (v : Signature) :
    List (String × Signature) :=
  if m.any (fun p => p.1 = k) then
    m.map (fun p => if p.1 = k then (k, v) else p)
  else
    m ++ [(k, v)]

/-- `visitor.processInterface` (minimock.go lines 108-112): for each method
of the resolved interface, store its signature in `v.methods` under the
method's name.  `iface` is the type checker's embedding-resolved method
list; `acc` is the current contents of `v.methods`. -/
def processInterface (acc : List (String × Signature))
    (iface : List (String × Signature)) : List (String × Signature) :=
  iface.foldl (fun m p => insertMethod m p.1 p.2) acc

/-- Modelled from the spec: a type declaration as the AST walk in
`visitor.Visit` sees it — either a named interface whose
embedding-resolved method set the type checker reports (spec section 4.1:
"iterate its method set (post-embedding-resolution) recording each
method's name and signature"), or a declaration of any non-interface
kind, which the type switch in `visitor.Visit` ignores. -/
inductive Decl where
  | ifaceDecl (name : String) (methods : List (String × Signature)) : Decl
  | otherDecl (name : String) : Decl
deriving DecidableEq, Repr

/-- The AST walk of `visitor.Visit` (minimock.go lines 88-106) over all
type declarations of the package: a matching interface declaration is fed
to `processInterface`; everything else leaves `v.methods` unchanged. -/
def visitAll (target : String) (decls : List Decl) : List (String × Signature) :=
  decls.foldl
    (fun acc d =>
      match d with
      | Decl.ifaceDecl n ms => if n = target then processInterface acc ms else acc
      | Decl.otherDecl _ => acc)
    []

/-! ## Runtime semantics of the generated mock

The template (minimock.go lines 114-175) generates, per interface method,
a function-valued field `<name>Func`, an `int` counter `<name>Counter`, and
a forwarding method; plus a constructor and three verification helpers.
We embed the generated code's behaviour directly: effects on the
`*testing.T` handle are recorded as events. -/

/-- An effect on the `*testing.T` test handle recorded by generated code:
`t.Fatalf` (fatal failure, aborts the test), `t.Error` (non-fatal
failure), `t.Log`. -/
inductive TestEvent where
  | fatalf (msg : String) : TestEvent
  | error (msg : String) : TestEvent
  | log (msg : String) : TestEvent
deriving DecidableEq, Repr

/-- The per-method state of a generated mock for one method with argument
type `α` and result type `β`: the `<name>Func` field (`none` models a nil
Go function value) and the `<name>Counter` field. -/
structure MockMethod (α β : Type) where
  func : Option (α → β)
  counter : Nat

/-- Everything one call of a generated forwarding method produces: the
updated per-method state, the `*testing.T` events, the list of argument
tuples the configured function was invoked with, and the returned results
(`none` when the call dies in `t.Fatalf` before reaching `Func`). -/
structure CallResult (α β : Type) where
  state : MockMethod α β
  events : List TestEvent
  calls : List α
  ret : Option β

/-- A generated forwarding method (template lines 130-141): lock, increment
the counter, unlock; if `<name>Func` is nil, `t.Fatalf("Unexpected call to
<structName>.<methodName>")` (which aborts the test, so the function is
never invoked); otherwise invoke `<name>Func` with the forwarded arguments
and return its results. -/
def callMethod {α β : Type} (structName methodName : String)
    (m : MockMethod α β) (a : α) : CallResult α β :=
  let m1 : MockMethod α β := { m with counter := m.counter + 1 }
  match m1.func with
  | none =>
      { state := m1
        events := [TestEvent.fatalf ("Unexpected call to " ++ structName ++ "." ++ methodName)]
        calls := []
        ret := none }
  | some f =>
      { state := m1
        events := []
        calls := [a]
        ret := some (f a) }

/-- The observable per-method state the three verification helpers read:
the method's name, whether its `<name>Func` field is non-nil, and its
`<name>Counter` value. -/
structure MethodSlot where
  name : String
  funcConfigured : Bool
  counter : Nat
deriving DecidableEq, Repr

/-- The generated constructor `New<structName>` (template lines 125-127):
`&<structName>{t: t, m: &sync.RWMutex{}}`, so every `<name>Func` field is
its zero value nil and every `<name>Counter` is its zero value 0. -/
def newMock (names : List String) : List MethodSlot :=
  names.map (fun n => { name := n, funcConfigured := false, counter := 0 })

/-- The counter increment a forwarding method performs on the mock's slot
list: the slot of the called method gains 1, all others are untouched. -/
def callSlot (slots : List MethodSlot) (n : String) : List MethodSlot :=
  slots.map (fun s => if s.name = n then { s with counter := s.counter + 1 } else s)

/-- Generated `CheckMocksCalled` (template lines 154-160): for every
method, if `<name>Func != nil && <name>Counter == 0` then
`t.Error("Expected call to <structName>.<methodName>")`. -/
def CheckMocksCalled (structName : String) (slots : List MethodSlot) : List TestEvent :=
  slots.filterMap
    (fun s =>
      if s.funcConfigured = true ∧ s.counter = 0 then
        some (TestEvent.error ("Expected call to " ++ structName ++ "." ++ s.name))
      else none)

/-- Generated `ValidateCallCounters` (template lines 144-152): first
`t.Log("ValidateCallCounters is deprecated please use CheckMocksCalled")`,
then the same per-method loop as `CheckMocksCalled`, duplicated verbatim
in the template. -/
def ValidateCallCounters (structName : String) (slots : List MethodSlot) : List TestEvent :=
  TestEvent.log ("ValidateCallCounters is deprecated please use CheckMocksCalled") ::
    slots.filterMap
      (fun s =>
        if s.funcConfigured = true ∧ s.counter = 0 then
          some (TestEvent.error ("Expected call to " ++ structName ++ "." ++ s.name))
        else none)

/-- Generated `AllMocksCalled` (template lines 164-175): under a read
lock, return false as soon as some method has `<name>Func != nil &&
<name>Counter == 0`, else return true. -/
def AllMocksCalled (slots : List MethodSlot) : Bool :=
  slots.all (fun s => ! (s.funcConfigured && s.counter == 0))

/-! ## Template rendering

`main` feeds `v.methods` to `gen.ProcessTemplate("interface", template,
v.methods)`.  Go's `text/template` is a deterministic interpreter; for a
fixed iteration order of the method map (we take the order of the list),
instantiating the `template` constant of minimock.go lines 114-175 is the
pure string-building function below.  The `signature`, `params`/`.Pass`
and `results` helpers come from the external generator package. -/

/-- The opening brace character as a string. -/
def lb : String := "\x7b"

/-- The closing brace character as a string. -/
def rb : String := "\x7d"

/-- Modelled from the spec: the external generator package's `signature`
template helper (not in src/), which renders a method signature's ordered
parameter types, variadic marker and ordered result types (spec section 3:
"signature (ordered list of typed parameters, ordered list of typed
results, variadic flag)"). -/
def renderSig (sig : Signature) : String :=
  "(" ++ String.intercalate (", ") sig.params ++
    (if sig.variadic then ("...") else "") ++ ")" ++
    (if sig.results.isEmpty then "" else
      " (" ++ String.intercalate (", ") sig.results ++ ")")

/-- Modelled from the spec: the external generator package's
`(params $method).Pass` helper (not in src/), which renders the
comma-separated argument names forwarding the parameters. -/
def passArgs (sig : Signature) : String :=
  String.intercalate (", ")
    ((List.range sig.params.length).map (fun i => "p" ++ toString i))

/-- One forwarding-method block of the template (lines 129-142),
instantiated for method `p.1` with signature `p.2`. -/
def renderMethod (structName : String) (p : String × Signature) : String :=
  "func (m *" ++ structName ++ ") " ++ p.1 ++ renderSig p.2 ++ " " ++ lb ++ "\n" ++
    "m.m.Lock()\n" ++
    "m." ++ p.1 ++ "Counter += 1\n" ++
    "m.m.Unlock()\n" ++
    "if m." ++ p.1 ++ "Func == nil " ++ lb ++ "\n" ++
    "m.t.Fatalf(\"Unexpected call to " ++ structName ++ "." ++ p.1 ++ "\")\n" ++
    rb ++ "\n" ++
    (if (p.2.results).length > 0 then ("return ") else "") ++
    "m." ++ p.1 ++ "Func(" ++ passArgs p.2 ++ ")\n" ++
    rb ++ "\n"

/-- The `ValidateCallCounters` block of the template (lines 144-152). -/
def renderValidate (structName : String) (methods : List (String × Signature)) : String :=
  "func (m *" ++ structName ++ ") ValidateCallCounters() " ++ lb ++ "\n" ++
    "m.t.Log(\"ValidateCallCounters is deprecated please use CheckMocksCalled\")\n" ++
    String.join (methods.map (fun p =>
      "if m." ++ p.1 ++ "Func != nil && m." ++ p.1 ++ "Counter == 0 " ++ lb ++ "\n" ++
        "m.t.Error(\"Expected call to " ++ structName ++ "." ++ p.1 ++ "\")\n" ++
        rb ++ "\n")) ++
    rb ++ "\n"

/-- The `CheckMocksCalled` block of the template (lines 154-160). -/
def renderCheck (structName : String) (methods : List (String × Signature)) : String :=
  "func (m *" ++ structName ++ ") CheckMocksCalled() " ++ lb ++ "\n" ++
    String.join (methods.map (fun p =>
      "if m." ++ p.1 ++ "Func != nil && m." ++ p.1 ++ "Counter == 0 " ++ lb ++ "\n" ++
        "m.t.Error(\"Expected call to " ++ structName ++ "." ++ p.1 ++ "\")\n" ++
        rb ++ "\n")) ++
    rb ++ "\n"

/-- The `AllMocksCalled` block of the template (lines 162-175). -/
def renderAll (structName : String) (methods : List (String × Signature)) : String :=
  "func (m *" ++ structName ++ ") AllMocksCalled() bool " ++ lb ++ "\n" ++
    "m.m.RLock()\n" ++
    "defer m.m.RUnlock()\n" ++
    String.join (methods.map (fun p =>
      "if m." ++ p.1 ++ "Func != nil && m." ++ p.1 ++ "Counter == 0 " ++ lb ++ "\n" ++
        "return false\n" ++
        rb ++ "\n")) ++
    "return true\n" ++
    rb ++ "\n"

/-- Instantiating the whole `template` constant (lines 114-175) for a
fixed method ordering, struct name and destination package name: struct
declaration with one `Func` field and one `Counter` field per method, the
constructor, the forwarding methods and the three verification helpers. -/
def render (methods : List (String × Signature)) (structName packageName : String) : String :=
  "package " ++ packageName ++ "\n" ++
    "type " ++ structName ++ " struct " ++ lb ++ "\n" ++
    "t *testing.T\n" ++
    "m *sync.RWMutex\n" ++
    String.join (methods.map (fun p => p.1 ++ "Func func" ++ renderSig p.2 ++ "\n")) ++
    String.join (methods.map (fun p => p.1 ++ "Counter int\n")) ++
    rb ++ "\n" ++
    "func New" ++ structName ++ "(t *testing.T) *" ++ structName ++ " " ++ lb ++ "\n" ++
    "return &" ++ structName ++ lb ++ "t: t, m: &sync.RWMutex" ++ lb ++ rb ++ " " ++ rb ++ "\n" ++
    rb ++ "\n" ++
    String.join (methods.map (renderMethod structName)) ++
    renderValidate structName methods ++
    renderCheck structName methods ++
    renderAll structName methods

/-! ## The main pipeline -/

/-- Outcome of `main` after the package is loaded: `die` with a
resolution error before any rendering or writing, or the rendered text
written to the output file. -/
inductive MainResult where
  | resolutionError (msg : String) : MainResult
  | written (content : String) : MainResult
deriving DecidableEq, Repr

/-- `main` after loading (minimock.go lines 71-86): walk every file's
declarations accumulating `v.methods`; if no method was collected, `die`
with the "was not found ... or it's an empty interface" error — before
`ProcessTemplate` and `WriteToFilename` ever run — otherwise render the
template and write it. -/
def runMain (decls : List Decl) (pkgPath : String) (opts : Options) : MainResult :=
  let methods := visitAll opts.InterfaceName decls
  if methods.isEmpty then
    MainResult.resolutionError
      ("interface " ++ opts.InterfaceName ++ " was not found in " ++ pkgPath ++
        " or it's an empty interface")
  else
    MainResult.written (render methods opts.StructName opts.Package)

/-! ## Helper lemmas -/

/-- Inserting a key nobody in the map holds appends the pair. -/
lemma insertMethod_not_mem (acc : List (String × Signature)) (k : String) (v : Signature)
    (h : ∀ q ∈ acc, q.1 ≠ k) : insertMethod acc k v = acc ++ [(k, v)] := by
  unfold insertMethod
  rw [if_neg]
  simp only [List.any_eq_true, decide_eq_true_eq, not_exists, not_and]
  intro q hq
  exact h q hq

/-- Folding map insertion over pairs whose keys are fresh and mutually
distinct appends them in order. -/
lemma foldl_insert_disjoint (ps : List (String × Signature))
    (acc : List (String × Signature))
    (hnodup : (ps.map Prod.fst).Nodup)
    (hdisj : ∀ p ∈ ps, ∀ q ∈ acc, q.1 ≠ p.1) :
    ps.foldl (fun m p => insertMethod m p.1 p.2) acc = acc ++ ps := by
  induction ps generalizing acc with
  | nil => simp
  | cons p ps ih =>
    obtain ⟨n, sig⟩ := p
    rw [List.foldl_cons]
    simp only [List.map_cons, List.nodup_cons, List.mem_map] at hnodup
    have h1 : insertMethod acc n sig = acc ++ [(n, sig)] :=
      insertMethod_not_mem acc n sig
        (fun q hq => hdisj (n, sig) (List.mem_cons_self _ _) q hq)
    rw [h1]
    have h2 := ih (acc ++ [(n, sig)]) hnodup.2
      (by
        intro r hr q hq
        rcases List.mem_append.mp hq with hq | hq
        · exact hdisj r (List.mem_cons_of_mem _ hr) q hq
        · rcases List.mem_singleton.mp hq with rfl
          intro hk
          exact hnodup.1 ⟨r, hr, hk.symm⟩)
    rw [h2, List.append_assoc]
    rfl

/-- The declaration walk leaves the accumulated method map unchanged when
every declaration of the target name is an interface with no methods. -/
lemma visitFoldAux (target : String) (decls : List Decl)
    (acc : List (String × Signature))
    (h : ∀ n ms, Decl.ifaceDecl n ms ∈ decls → n = target → ms = []) :
    decls.foldl
      (fun acc d =>
        match d with
        | Decl.ifaceDecl n ms => if n = target then processInterface acc ms else acc
        | Decl.otherDecl _ => acc)
      acc = acc := by
  induction decls generalizing acc with
  | nil => rfl
  | cons d ds ih =>
    have htail : ∀ n ms, Decl.ifaceDecl n ms ∈ ds → n = target → ms = [] :=
      fun n ms hm hn => h n ms (List.mem_cons_of_mem _ hm) hn
    cases d with
    | ifaceDecl n ms =>
      by_cases hn : n = target
      · have hms := h n ms (List.mem_cons_self _ _) hn
        subst hms
        simpa [hn, processInterface] using ih acc htail
      · simpa [hn] using ih acc htail
    | otherDecl nm => simpa using ih acc htail

/-- `visitAll` collects nothing when the target never occurs as a
non-empty interface declaration. -/
lemma visitAll_eq_nil (target : String) (decls : List Decl)
    (h : ∀ n ms, Decl.ifaceDecl n ms ∈ decls → n = target → ms = []) :
    visitAll target decls = [] := by
  unfold visitAll
  exact visitFoldAux target decls [] h

/-! ## Theorems -/

/-- C1: for an interface whose embedding-resolved method list carries
pairwise-distinct names (as the type checker guarantees), the resolver's
output method map has exactly one entry per method name and stores for
each name exactly the source declaration's signature — it is the source
method list itself. -/
theorem C1_resolver_method_set (iface : List (String × Signature))
    (h : (iface.map Prod.fst).Nodup) :
    processInterface [] iface = iface ∧
    ((processInterface [] iface).map Prod.fst).Nodup := by
  have heq : processInterface [] iface = iface := by
    unfold processInterface
    simpa using foldl_insert_disjoint iface [] h (by simp)
  refine ⟨heq, ?_⟩
  rw [heq]
  exact h

/-- Witness for C1 at a concrete two-method interface. -/
theorem C1_resolver_method_set_witness :
    processInterface []
        [("Greet", { params := ["string"], results := ["string"], variadic := false }),
         ("Close", { params := [], results := ["error"], variadic := false })] =
      [("Greet", { params := ["string"], results := ["string"], variadic := false }),
       ("Close", { params := [], results := ["error"], variadic := false })] ∧
    ((processInterface []
        [("Greet", { params := ["string"], results := ["string"], variadic := false }),
         ("Close", { params := [], results := ["error"], variadic := false })]).map
      Prod.fst).Nodup :=
  C1_resolver_method_set
    [("Greet", { params := ["string"], results := ["string"], variadic := false }),
     ("Close", { params := [], results := ["error"], variadic := false })]
    (by decide)

/-- C4: when the requested name does not occur in the package, or names a
non-interface type, or names an interface with zero methods, `main` dies
with the resolution error before any rendering or writing — no output
file is produced. -/
theorem C4_resolution_failure (decls : List Decl) (pkgPath : String) (opts : Options)
    (h : ∀ n ms, Decl.ifaceDecl n ms ∈ decls → n = opts.InterfaceName → ms = []) :
    runMain decls pkgPath opts =
      MainResult.resolutionError
        ("interface " ++ opts.InterfaceName ++ " was not found in " ++ pkgPath ++
          " or it's an empty interface") ∧
    ∀ content, runMain decls pkgPath opts ≠ MainResult.written content := by
  have hm : runMain decls pkgPath opts =
      MainResult.resolutionError
        ("interface " ++ opts.InterfaceName ++ " was not found in " ++ pkgPath ++
          " or it's an empty interface") := by
    unfold runMain
    rw [visitAll_eq_nil _ _ h]
    rfl
  refine ⟨hm, fun content hc => ?_⟩
  rw [hm] at hc
  exact MainResult.noConfusion hc

/-- Witness for C4 at a concrete package holding only a non-interface
declaration: resolving the absent name `Bar` fails with the resolution
error and writes nothing. -/
theorem C4_resolution_failure_witness :
    runMain [Decl.otherDecl "Foo"] "example.com/pkg"
        { InputFile := "in.go", OutputFile := "out.go", InterfaceName := "Bar",
          StructName := "BarMock", Package := "pkg" } =
      MainResult.resolutionError
        ("interface " ++ "Bar" ++ " was not found in " ++ "example.com/pkg" ++
          " or it's an empty interface") ∧
    ∀ content,
      runMain [Decl.otherDecl "Foo"] "example.com/pkg"
          { InputFile := "in.go", OutputFile := "out.go", InterfaceName := "Bar",
            StructName := "BarMock", Package := "pkg" } ≠
        MainResult.written content :=
  C4_resolution_failure [Decl.otherDecl "Foo"] "example.com/pkg"
    { InputFile := "in.go", OutputFile := "out.go", InterfaceName := "Bar",
      StructName := "BarMock", Package := "pkg" }
    (fun n ms hm _ => by
      rcases List.mem_singleton.mp hm with h1
      exact Decl.noConfusion h1)

/-- C3: the generated `AllMocksCalled` returns true iff every method whose
function field is configured has a non-zero call counter; a method whose
function field was never configured does not affect the result. -/
theorem C3_all_mocks_called (slots : List MethodSlot) :
    (AllMocksCalled slots = true ↔
      ∀ s ∈ slots, s.funcConfigured = true → s.counter ≠ 0) ∧
    ∀ s : MethodSlot, s.funcConfigured = false →
      AllMocksCalled (s :: slots) = AllMocksCalled slots := by
  constructor
  · simp only [AllMocksCalled, List.all_eq_true, Bool.not_eq_true', Bool.and_eq_false_iff,
      Bool.not_eq_true, beq_eq_false_iff_ne, ne_eq]
    constructor
    · intro hall s hs hc hz
      rcases hall s hs with h1 | h1
      · rw [hc] at h1
        cases h1
      · exact h1 hz
    · intro hall s hs
      by_cases hc : s.funcConfigured = true
      · exact Or.inr (hall s hs hc)
      · exact Or.inl (by simpa using hc)
  · intro s hs
    simp [AllMocksCalled, hs]

/-- C6: the generated `ValidateCallCounters` logs the deprecation notice
and then performs exactly the check of `CheckMocksCalled`, and that check
records one non-fatal test error for precisely the methods with a
configured function and a zero counter, in method order. -/
theorem C6_validate_equals_check (sn : String) (slots : List MethodSlot) :
    ValidateCallCounters sn slots =
      TestEvent.log ("ValidateCallCounters is deprecated please use CheckMocksCalled") ::
        CheckMocksCalled sn slots ∧
    CheckMocksCalled sn slots =
      (slots.filter (fun s => s.funcConfigured && s.counter == 0)).map
        (fun s => TestEvent.error ("Expected call to " ++ sn ++ "." ++ s.name)) := by
  refine ⟨rfl, ?_⟩
  induction slots with
  | nil => rfl
  | cons s ss ih =>
    rcases hb : (s.funcConfigured && s.counter == 0) with _ | _
    · have h : ¬ (s.funcConfigured = true ∧ s.counter = 0) := by
        simpa using hb
      simp only [CheckMocksCalled, List.filterMap_cons, List.filter_cons, hb, if_neg h] at *
      simpa using ih
    · have h : s.funcConfigured = true ∧ s.counter = 0 := by
        simpa using hb
      simp only [CheckMocksCalled, List.filterMap_cons, List.filter_cons, hb, if_pos h] at *
      simpa using ih

/-- C10: a mock fresh from the generated constructor has every function
field nil and every counter zero; consequently `AllMocksCalled` returns
true, `CheckMocksCalled` records no events and `ValidateCallCounters`
records only its deprecation log; and a forwarding-method call never
decreases any counter. -/
theorem C10_fresh_mock (names : List String) (sn : String) :
    (∀ s ∈ newMock names, s.funcConfigured = false ∧ s.counter = 0) ∧
    AllMocksCalled (newMock names) = true ∧
    CheckMocksCalled sn (newMock names) = [] ∧
    ValidateCallCounters sn (newMock names) =
      [TestEvent.log ("ValidateCallCounters is deprecated please use CheckMocksCalled")] ∧
    ∀ (slots : List MethodSlot) (n : String),
      List.Forall₂ (fun a b => a.counter ≤ b.counter) slots (callSlot slots n) := by
  refine ⟨?_, ?_, ?_, ?_, ?_⟩
  · intro s hs
    simp only [newMock, List.mem_map] at hs
    obtain ⟨n, _, rfl⟩ := hs
    exact ⟨rfl, rfl⟩
  · simp [AllMocksCalled, newMock, List.all_eq_true]
  · simp [CheckMocksCalled, newMock, List.filterMap_map]
  · simp [ValidateCallCounters, newMock, List.filterMap_map]
  · intro slots n
    induction slots with
    | nil => exact List.Forall₂.nil
    | cons s ss ih =>
      simp only [callSlot, List.map_cons] at ih ⊢
      refine List.Forall₂.cons ?_ ih
      by_cases hn : s.name = n
      · simp [hn]
      · simp [hn]

/-- C7: if any of the `-f`, `-i`, `-o`, `-p` flags is empty, or the `-o`
output path does not end in `".go"`, `processFlags` prints the usage text
and exits with code 1. -/
theorem C7_flag_validation (fl : Flags)
    (h : fl.f = "" ∨ fl.i = "" ∨ fl.o = "" ∨ fl.p = "" ∨ ¬ (hasSuffix fl.o (".go") = true)) :
    processFlags fl = FlagOutcome.usageExit1 := by
  unfold processFlags
  split
  · rfl
  · rename_i hc
    exact absurd (by tauto) hc

/-- Witness for C7 at a concrete input: an empty `-f` flag is rejected. -/
theorem C7_flag_validation_witness :
    processFlags { f := "", i := "Greeter", o := "out.go", p := "pkg", t := "" } =
      FlagOutcome.usageExit1 :=
  C7_flag_validation { f := "", i := "Greeter", o := "out.go", p := "pkg", t := "" }
    (Or.inl rfl)

/-- C8: when all required flags pass validation, an empty `-t` flag makes
the generated struct name default to the interface name with `"Mock"`
appended, and a non-empty `-t` flag is used unchanged. -/
theorem C8_struct_name_default (fl : Flags)
    (hp : ¬ fl.p = "") (hf : ¬ fl.f = "") (ho : ¬ fl.o = "") (hi : ¬ fl.i = "")
    (hgo : hasSuffix fl.o (".go") = true) :
    (fl.t = "" →
      processFlags fl = FlagOutcome.ok
        { InputFile := fl.f, OutputFile := fl.o, InterfaceName := fl.i,
          StructName := fl.i ++ "Mock", Package := fl.p }) ∧
    (¬ fl.t = "" →
      processFlags fl = FlagOutcome.ok
        { InputFile := fl.f, OutputFile := fl.o, InterfaceName := fl.i,
          StructName := fl.t, Package := fl.p }) := by
  constructor <;> intro ht <;> simp [processFlags, hp, hf, ho, hi, hgo, ht]

/-- Witness for C8 at concrete inputs: with `-t` empty the struct name is
`GreeterMock`; with `-t` set to `MyMock` it is `MyMock`. -/
theorem C8_struct_name_default_witness :
    processFlags { f := "a.go", i := "Greeter", o := "out.go", p := "pkg", t := "" } =
      FlagOutcome.ok
        { InputFile := "a.go", OutputFile := "out.go", InterfaceName := "Greeter",
          StructName := "Greeter" ++ "Mock", Package := "pkg" } ∧
    processFlags { f := "a.go", i := "Greeter", o := "out.go", p := "pkg", t := "MyMock" } =
      FlagOutcome.ok
        { InputFile := "a.go", OutputFile := "out.go", InterfaceName := "Greeter",
          StructName := "MyMock", Package := "pkg" } :=
  ⟨(C8_struct_name_default
      { f := "a.go", i := "Greeter", o := "out.go", p := "pkg", t := "" }
      (by decide) (by decide) (by decide) (by decide) (by decide)).1 rfl,
   (C8_struct_name_default
      { f := "a.go", i := "Greeter", o := "out.go", p := "pkg", t := "MyMock" }
      (by decide) (by decide) (by decide) (by decide) (by decide)).2 (by decide)⟩

/-- C5: rendering is deterministic — two runs of the renderer on identical
inputs (method set in a fixed ordering, struct name, package name) produce
byte-identical output text. -/
theorem C5_render_deterministic
    (ms₁ ms₂ : List (String × Signature)) (sn₁ sn₂ pn₁ pn₂ : String)
    (hms : ms₁ = ms₂) (hsn : sn₁ = sn₂) (hpn : pn₁ = pn₂) :
    render ms₁ sn₁ pn₁ = render ms₂ sn₂ pn₂ := by
  rw [hms, hsn, hpn]

/-- Witness for C5 at a concrete input: two runs on the `Greeter` method
set agree. -/
theorem C5_render_deterministic_witness :
    render [("Greet", { params := ["string"], results := ["string"], variadic := false })]
        "GreeterMock" "pkg" =
      render [("Greet", { params := ["string"], results := ["string"], variadic := false })]
        "GreeterMock" "pkg" :=
  C5_render_deterministic _ _ _ _ _ _ rfl rfl rfl

/-- C2: a call to a generated forwarding method with the function field
unconfigured (nil) reports a fatal test failure naming
`<structName>.<methodName>` and never invokes any function; a call with
the function field configured invokes the configured function exactly
once with the forwarded arguments and returns its results unchanged. -/
theorem C2_forwarding_method {α β : Type} (sn mn : String) (m : MockMethod α β) (a : α) :
    (m.func = none →
      callMethod sn mn m a =
        { state := { func := none, counter := m.counter + 1 }
          events := [TestEvent.fatalf ("Unexpected call to " ++ sn ++ "." ++ mn)]
          calls := []
          ret := none }) ∧
    (∀ f : α → β, m.func = some f →
      callMethod sn mn m a =
        { state := { func := some f, counter := m.counter + 1 }
          events := []
          calls := [a]
          ret := some (f a) }) := by
  obtain ⟨mf, mc⟩ := m
  constructor
  · intro h
    cases h
    rfl
  · intro f h
    cases h
    rfl

/-- Witness for C2 at concrete inputs: an unconfigured call dies in
`Fatalf`; a configured call forwards the argument once and returns the
function's result. -/
theorem C2_forwarding_method_witness :
    callMethod "GreeterMock" "Greet" ({ func := none, counter := 0 } : MockMethod Nat Nat) 5 =
      { state := { func := none, counter := 0 + 1 }
        events := [TestEvent.fatalf ("Unexpected call to " ++ "GreeterMock" ++ "." ++ "Greet")]
        calls := []
        ret := none } ∧
    callMethod "GreeterMock" "Greet" ({ func := some id, counter := 2 } : MockMethod Nat Nat) 5 =
      { state := { func := some id, counter := 2 + 1 }
        events := []
        calls := [5]
        ret := some (id 5) } :=
  ⟨(C2_forwarding_method "GreeterMock" "Greet" { func := none, counter := 0 } 5).1 rfl,
   (C2_forwarding_method "GreeterMock" "Greet" { func := some id, counter := 2 } 5).2 id rfl⟩

/-- C9: every call to a generated forwarding method increments the call
counter by exactly one before the configured-function check runs; in
particular an unexpected call (nil function field) still increments the
counter and then reports the fatal failure. -/
theorem C9_counter_increment_first {α β : Type} (sn mn : String) (m : MockMethod α β) (a : α) :
    ((callMethod sn mn m a).state.counter = m.counter + 1) ∧
    (m.func = none →
      (callMethod sn mn m a).state.counter = m.counter + 1 ∧
      (callMethod sn mn m a).events =
        [TestEvent.fatalf ("Unexpected call to " ++ sn ++ "." ++ mn)]) := by
  obtain ⟨mf, mc⟩ := m
  refine ⟨?_, ?_⟩
  · cases mf <;> rfl
  · intro h
    cases h
    exact ⟨rfl, rfl⟩

/-- Witness for C9 at a concrete input: an unexpected call on a fresh
method state leaves the counter at 1 and reports the fatal failure. -/
theorem C9_counter_increment_first_witness :
    ((callMethod "S" "M" ({ func := none, counter := 4 } : MockMethod Nat Nat) 7).state.counter =
      4 + 1) ∧
    ((callMethod "S" "M" ({ func := none, counter := 4 } : MockMethod Nat Nat) 7).state.counter =
        4 + 1 ∧
      (callMethod "S" "M" ({ func := none, counter := 4 } : MockMethod Nat Nat) 7).events =
        [TestEvent.fatalf ("Unexpected call to " ++ "S" ++ "." ++ "M")]) :=
  ⟨(C9_counter_increment_first "S" "M" { func := none, counter := 4 } 7).1,
   (C9_counter_increment_first "S" "M" { func := none, counter := 4 } 7).2 rfl⟩

end Minimock
